import Mathlib

/-!
Verification of the delivery pipeline of `src/bot.py` (a news-to-DM bot).

Python strings are modelled as `List Char` (`PyStr`), Python's `s.lower()`
as a character-wise `Char.toLower` map, `s.strip()` as dropping whitespace
from both ends, and `sub in s` as contiguous-sublist containment.
Timestamps are natural numbers (milliseconds where the code works in
`time.time() * 1000`, seconds where it works in `time.time()`).
-/

namespace YCBot

abbrev PyStr := List Char

/-- Python `s.lower()`, character-wise. -/
def pyLower (s : PyStr) : PyStr := s.map Char.toLower

/-- Python `s.strip()`: drop leading and trailing whitespace. -/
def pyStrip (s : PyStr) : PyStr :=
  ((s.dropWhile Char.isWhitespace).reverse.dropWhile Char.isWhitespace).reverse

/-- Python `sub in s` for strings: `sub` occurs as a contiguous substring
of `s` (the empty string is a substring of everything). -/
def pySubstr (sub : PyStr) : PyStr → Bool
  | [] => sub.isPrefixOf []
  | c :: rest => sub.isPrefixOf (c :: rest) || pySubstr sub rest

theorem pySubstr_iff (sub s : PyStr) : pySubstr sub s = true ↔ sub <:+: s := by
  induction s with
  | nil =>
    simp [pySubstr, List.isPrefixOf_iff_prefix, List.infix_nil, List.prefix_nil]
  | cons c rest ih =>
    simp [pySubstr, List.isPrefixOf_iff_prefix, List.infix_cons_iff, ih]

/-- One fetched story, as assembled by `fetch_hn_stories` (src/bot.py:236-242). -/
structure Story where
  id : PyStr
  title : PyStr
  url : PyStr
  hn_link : PyStr
  age : PyStr
deriving Repr, DecidableEq

/-- `hn_link = f"https://news.ycombinator.com/item?id={story_id}"`
(src/bot.py:230). -/
def hnLinkOf (story_id : PyStr) : PyStr :=
  "https://news.ycombinator.com/item?id=".toList ++ story_id

/-- A story as `fetch_hn_stories` builds it from a scraped row:
the `hn_link` field is always the synthesized internal link for the id. -/
def mkStory (story_id title url age : PyStr) : Story :=
  { id := story_id, title := title, url := url, hn_link := hnLinkOf story_id,
    age := age }

/-- `story_matches_keywords` (src/bot.py:368-381).  Empty keyword list
returns `True`; otherwise the loop returns `True` on the first keyword whose
lowered, stripped form is nonempty and occurs in the lowered title or the
lowered url, and `False` if no keyword does. -/
def story_matches_keywords (story : Story) (keywords : List PyStr) : Bool :=
  if keywords.isEmpty then true
  else
    let title_lower := pyLower story.title
    let url_lower := pyLower story.url
    keywords.any fun keyword =>
      let keyword_lower := pyStrip (pyLower keyword)
      !keyword_lower.isEmpty &&
        (pySubstr keyword_lower title_lower || pySubstr keyword_lower url_lower)

/-- The matcher exactly as claim C6 words it: empty keyword list means
`true`; otherwise true iff SOME keyword, case-folded and trimmed, is a
substring of the case-folded title or of the case-folded url (with no
exclusion of keywords that trim to the empty string). -/
def claimC6Matches (story : Story) (keywords : List PyStr) : Prop :=
  if keywords = [] then True
  else ∃ k ∈ keywords,
    pyStrip (pyLower k) <:+: pyLower story.title ∨
    pyStrip (pyLower k) <:+: pyLower story.url

/-- The matcher as amended: a keyword only counts when its case-folded,
trimmed form is nonempty (the code skips keywords that strip to `""`). -/
def claimC6MatchesAmended (story : Story) (keywords : List PyStr) : Prop :=
  if keywords = [] then True
  else ∃ k ∈ keywords,
    pyStrip (pyLower k) ≠ [] ∧
    (pyStrip (pyLower k) <:+: pyLower story.title ∨
     pyStrip (pyLower k) <:+: pyLower story.url)

/-- A whitespace-only keyword: the code ignores it, the claim's reading
makes it match everything (the empty string is a substring of any string). -/
def c6Story : Story := mkStory "1".toList "a".toList "b".toList "".toList

/-- C6 (counterexample): for the story with title `"a"` and the keyword
list `[" "]`, the code returns `false`, yet the claim's wording — some
keyword whose case-folded trimmed form is a substring of the title or url —
is satisfied, because `" "` trims to the empty string.  So the claimed
iff fails at this input. -/
theorem c6_counterexample :
    ¬ (story_matches_keywords c6Story [[' ']] = true ↔
       claimC6Matches c6Story [[' ']]) := by
  intro h
  have hcode : story_matches_keywords c6Story [[' ']] = false := by decide
  have hclaim : claimC6Matches c6Story [[' ']] := by
    simp only [claimC6Matches, if_neg (by simp : ¬([[' ']] : List PyStr) = [])]
    refine ⟨[' '], by simp, Or.inl ?_⟩
    have : pyStrip (pyLower [' ']) = [] := by decide
    rw [this]
    exact List.nil_infix
  rw [hcode] at h
  exact absurd (h.mpr hclaim) (by simp)

/-- C6 (amended): `story_matches_keywords` returns `true` iff the keyword
list is empty, or some keyword whose case-folded trimmed form is nonempty
is a substring of the case-folded title or of the case-folded url. -/
theorem c6_matches_amended (story : Story) (keywords : List PyStr) :
    story_matches_keywords story keywords = true ↔
      claimC6MatchesAmended story keywords := by
  unfold story_matches_keywords claimC6MatchesAmended
  by_cases h : keywords = []
  · subst h; simp
  · rw [if_neg (by simpa using h), if_neg h]
    simp only [List.any_eq_true, Bool.and_eq_true, Bool.or_eq_true,
      Bool.not_eq_true', List.isEmpty_eq_false, pySubstr_iff]

/-! ## Delivery source link (claim C10) -/

/-- The source link chosen by `send_dm_to_user` (src/bot.py:799):
`story["hn_link"] if story["url"].startswith("item?id=") else story["url"]`. -/
def source_link (story : Story) : PyStr :=
  if ("item?id=".toList).isPrefixOf story.url then story.hn_link else story.url

/-- A story whose scraped href was absent, so `url = ""` (the default of
`title_link.get("href", "")`, src/bot.py:229). -/
def c10Story : Story := mkStory "42".toList "t".toList "".toList "1h".toList

/-- C10 (counterexample): for a story with an empty `url`, `send_dm_to_user`
uses the empty url itself as the source link — it does NOT substitute the
synthesized `hn_link`, which is nonempty. -/
theorem c10_counterexample :
    c10Story.url = [] ∧
    source_link c10Story = [] ∧
    source_link c10Story ≠ c10Story.hn_link := by
  refine ⟨rfl, rfl, ?_⟩
  decide

/-- C10 (amended): the synthesized internal link is substituted exactly
when the url starts with `"item?id="` (the relative href Hacker News uses
for self posts); any other url — the empty one included — is used as is.
For a fetched story the substituted link is the `hn_link` synthesized from
the story's id. -/
theorem c10_source_link (story_id title url age : PyStr) :
    (("item?id=".toList).isPrefixOf url = true →
      source_link (mkStory story_id title url age) = hnLinkOf story_id) ∧
    (("item?id=".toList).isPrefixOf url = false →
      source_link (mkStory story_id title url age) = url) := by
  constructor <;> intro h <;> simp only [source_link, mkStory] <;> rw [h] <;> simp

/-- Witness for `c10_source_link` at concrete inputs: a self-post href
`"item?id=42"` is substituted by the synthesized link, and the empty url is
kept. -/
theorem c10_source_link_witness :
    source_link (mkStory "42".toList "t".toList "item?id=42".toList []) =
      hnLinkOf "42".toList ∧
    source_link (mkStory "42".toList "t".toList [] []) = [] :=
  ⟨(c10_source_link "42".toList "t".toList "item?id=42".toList []).1 (by decide),
   (c10_source_link "42".toList "t".toList [] []).2 (by decide)⟩

/-! ## Circuit breaker (claim C4) — src/bot.py:70-108 -/

inductive CircuitState where
  | CLOSED
  | OPEN
  | HALF_OPEN
deriving Repr, DecidableEq

/-- The mutable fields of a `CircuitBreaker` instance (src/bot.py:71-77).
`last_failure_time` is in milliseconds (`time.time() * 1000`); `None`
initially. -/
structure CircuitBreaker where
  failure_threshold : Nat
  timeout_ms : Nat
  failure_count : Nat
  last_failure_time : Option Nat
  state : CircuitState
deriving Repr, DecidableEq

/-- `CircuitBreaker(failure_threshold, timeout_ms)` constructor defaults. -/
def CircuitBreaker.init (failure_threshold timeout_ms : Nat) : CircuitBreaker :=
  { failure_threshold := failure_threshold, timeout_ms := timeout_ms,
    failure_count := 0, last_failure_time := none, state := CircuitState.CLOSED }

/-- Outcome of the wrapped operation when it is actually invoked. -/
inductive OpOutcome where
  | success
  | failure
deriving Repr, DecidableEq

/-- Result of one `execute` call: the updated breaker, whether the call
raised, whether it raised the "Circuit breaker is OPEN" exception, and
whether the wrapped operation was invoked at all. -/
structure ExecResult where
  breaker : CircuitBreaker
  raised : Bool
  circuitOpenRaised : Bool
  invoked : Bool
deriving Repr, DecidableEq

/-- `_on_success` (src/bot.py:98-101): reset the counter, close. -/
def CircuitBreaker.onSuccess (cb : CircuitBreaker) : CircuitBreaker :=
  { cb with failure_count := 0, state := CircuitState.CLOSED }

/-- `_on_failure` (src/bot.py:103-108): bump the counter, record the time,
open once the counter reaches the threshold. -/
def CircuitBreaker.onFailure (cb : CircuitBreaker) (now : Nat) : CircuitBreaker :=
  let fc := cb.failure_count + 1
  { cb with
    failure_count := fc,
    last_failure_time := some now,
    state := if cb.failure_threshold ≤ fc then CircuitState.OPEN else cb.state }

/-- The try-block of `execute`: invoke the operation, then `_on_success` /
`_on_failure`, re-raising the operation's failure. -/
def CircuitBreaker.runOp (cb : CircuitBreaker) (now : Nat) (op : OpOutcome) :
    ExecResult :=
  match op with
  | OpOutcome.success =>
    { breaker := cb.onSuccess, raised := false, circuitOpenRaised := false,
      invoked := true }
  | OpOutcome.failure =>
    { breaker := cb.onFailure now, raised := true, circuitOpenRaised := false,
      invoked := true }

/-- The guard `self.last_failure_time and (time.time() * 1000 -
self.last_failure_time) > self.timeout_ms` (src/bot.py:82): `True` only when
`last_failure_time` is truthy (non-`None` and nonzero) and strictly more
than `timeout_ms` ms have passed. -/
def CircuitBreaker.canProbe (cb : CircuitBreaker) (now : Nat) : Bool :=
  match cb.last_failure_time with
  | some lt => decide (lt ≠ 0 ∧ cb.timeout_ms < now - lt)
  | none => false

/-- `execute` (src/bot.py:79-96).  While `OPEN`: transition to `HALF_OPEN`
when the probe guard holds, otherwise raise "Circuit breaker is OPEN"
without invoking the operation. -/
def CircuitBreaker.execute (cb : CircuitBreaker) (now : Nat) (op : OpOutcome) :
    ExecResult :=
  if cb.state = CircuitState.OPEN then
    if cb.canProbe now then
      CircuitBreaker.runOp { cb with state := CircuitState.HALF_OPEN } now op
    else
      { breaker := cb, raised := true, circuitOpenRaised := true,
        invoked := false }
  else
    CircuitBreaker.runOp cb now op

/-- A sequence of `execute` calls whose operations all fail, at the given
timestamps. -/
def execFailures (cb : CircuitBreaker) : List Nat → CircuitBreaker
  | [] => cb
  | t :: ts => execFailures (cb.execute t OpOutcome.failure).breaker ts

theorem execFailures_closed_opens (thresh timeout : Nat) :
    ∀ (k c : Nat) (lft : Option Nat) (t : Nat), c + k = thresh → 0 < k →
    execFailures
      { failure_threshold := thresh, timeout_ms := timeout, failure_count := c,
        last_failure_time := lft, state := CircuitState.CLOSED }
      (List.replicate k t) =
      { failure_threshold := thresh, timeout_ms := timeout,
        failure_count := thresh, last_failure_time := some t,
        state := CircuitState.OPEN } := by
  intro k
  induction k with
  | zero => intro c lft t _ hk; exact absurd hk (by simp)
  | succ n ih =>
    intro c lft t hc _
    rw [List.replicate_succ]
    rw [show execFailures
        { failure_threshold := thresh, timeout_ms := timeout, failure_count := c,
          last_failure_time := lft, state := CircuitState.CLOSED }
        (t :: List.replicate n t) =
        execFailures
          { failure_threshold := thresh, timeout_ms := timeout,
            failure_count := c + 1, last_failure_time := some t,
            state := if thresh ≤ c + 1 then CircuitState.OPEN
                     else CircuitState.CLOSED }
          (List.replicate n t) from rfl]
    rcases Nat.eq_zero_or_pos n with hn | hn
    · subst hn
      rw [if_pos (by omega)]
      have hct : c + 1 = thresh := by omega
      rw [hct]
      rfl
    · rw [if_neg (by omega)]
      exact ih (c + 1) (some t) t (by omega) hn

/-- C4: starting from a fresh (CLOSED, zero-count) breaker, after
`failure_threshold` consecutive failing calls (all at time `t`) the breaker
is `OPEN` with `last_failure_time = t`; and every subsequent call made
before `timeout_ms` has elapsed since `t` raises the "circuit open" failure
without invoking the wrapped operation, whatever that operation would have
done. -/
theorem c4_breaker_opens_and_rejects
    (thresh timeout t : Nat) (ht : 0 < thresh) (cb : CircuitBreaker)
    (hin : cb = execFailures (CircuitBreaker.init thresh timeout)
      (List.replicate thresh t)) :
    cb.state = CircuitState.OPEN ∧
    cb.last_failure_time = some t ∧
    ∀ (now : Nat) (op : OpOutcome), now - t < timeout →
      (cb.execute now op).circuitOpenRaised = true ∧
      (cb.execute now op).raised = true ∧
      (cb.execute now op).invoked = false ∧
      (cb.execute now op).breaker = cb := by
  subst hin
  have hcb : execFailures (CircuitBreaker.init thresh timeout)
      (List.replicate thresh t) =
      { failure_threshold := thresh, timeout_ms := timeout,
        failure_count := thresh, last_failure_time := some t,
        state := CircuitState.OPEN } :=
    execFailures_closed_opens thresh timeout thresh 0 none t (by omega) ht
  refine ⟨by rw [hcb], by rw [hcb], ?_⟩
  intro now op hnow
  rw [hcb]
  have hprobe : CircuitBreaker.canProbe
      { failure_threshold := thresh, timeout_ms := timeout,
        failure_count := thresh, last_failure_time := some t,
        state := CircuitState.OPEN } now = false := by
    simp only [CircuitBreaker.canProbe, decide_eq_false_iff_not]
    intro h
    omega
  refine ⟨?_, ?_, ?_, ?_⟩ <;>
    simp [CircuitBreaker.execute, hprobe, hcb]

/-- Witness for `c4_breaker_opens_and_rejects`: a breaker with threshold 3
and timeout 60000 ms (the instance on src/bot.py:133), three failures at
t = 1000 ms, probed at 30000 ms with an operation that would succeed. -/
theorem c4_witness :
    (execFailures (CircuitBreaker.init 3 60000)
        (List.replicate 3 1000)).state = CircuitState.OPEN ∧
    ((execFailures (CircuitBreaker.init 3 60000)
        (List.replicate 3 1000)).execute 30000
          OpOutcome.success).circuitOpenRaised = true ∧
    ((execFailures (CircuitBreaker.init 3 60000)
        (List.replicate 3 1000)).execute 30000
          OpOutcome.success).invoked = false := by
  have h := c4_breaker_opens_and_rejects 3 60000 1000 (by decide)
    (execFailures (CircuitBreaker.init 3 60000) (List.replicate 3 1000)) rfl
  have h2 := h.2.2 30000 OpOutcome.success (by decide)
  exact ⟨h.1, h2.1, h2.2.2.1⟩

/-! ## Rate limiter (claim C5) — src/bot.py:110-134

`wait_for_slot` acquires the instance's non-reentrant `threading.Lock`
(`with self.lock:`) and keeps holding it across `await asyncio.sleep(...)`
and across the recursive call `return await self.wait_for_slot()`
(src/bot.py:118-128).  The recursive call's own `with self.lock:` then
tries to acquire a lock that is already held and cannot be released (the
outer `with` block only exits when the recursion returns), so the call
blocks forever.  The model carries the lock bit explicitly: acquiring a
held lock yields `none` ("never returns"), and the `fuel` argument bounds
the recursion depth — a result of `none` at every fuel means the call
never admits. -/

/-- One `wait_for_slot` activation.  Arguments: remaining recursion fuel,
`max_requests`, `window_ms`, whether the instance lock is already held by
an enclosing activation, the pending-timestamp deque (oldest first), and
the current time in ms.  `some (requests, admitted_at)` models returning
normally with the updated deque; `none` models never returning. -/
def wait_for_slot (maxReq window : Nat) :
    Nat → Bool → List Nat → Nat → Option (List Nat × Nat)
  | 0, _, _, _ => none
  | Nat.succ fuel, lockHeld, requests, now =>
    if lockHeld then none
    else
      let reqs := requests.dropWhile fun t0 => decide (window ≤ now - t0)
      if maxReq ≤ reqs.length then
        match reqs with
        | oldest :: rest =>
          let wait := window - (now - oldest) + 100
          wait_for_slot maxReq window fuel true (oldest :: rest) (now + wait)
        | [] => some (reqs ++ [now], now)
      else
        some (reqs ++ [now], now)

/-- C5 (the bug): with the production settings `RateLimiter(5, 30000)`
(src/bot.py:134), five timestamps already in the window and the limit
reached, the 6th `wait_for_slot` call sleeps while holding the instance
lock and then re-enters itself; the inner activation blocks forever on the
held lock.  Whatever recursion depth is allowed, the call never admits —
contradicting the claim that the 6th call is eventually admitted. -/
theorem c5_sixth_call_never_returns (fuel t0 now : Nat)
    (hwin : now - t0 < 30000) :
    wait_for_slot 5 30000 fuel false (List.replicate 5 t0) now = none := by
  have hc : decide (30000 ≤ now - t0) = false := by
    simp only [decide_eq_false_iff_not]
    omega
  match fuel with
  | 0 => rfl
  | Nat.succ 0 =>
    simp [wait_for_slot, hc, List.replicate_succ]
  | Nat.succ (Nat.succ fuel) =>
    simp [wait_for_slot, hc, List.replicate_succ]

/-- Witness for `c5_sixth_call_never_returns`: five calls admitted at
t = 0 ms, the 6th call arrives at t = 1000 ms and, at recursion depth 10,
still has not been admitted. -/
theorem c5_witness :
    wait_for_slot 5 30000 10 false (List.replicate 5 0) 1000 = none :=
  c5_sixth_call_never_returns 10 0 1000 (by decide)

/-- The part of the rate limiter that does work as described: while fewer
than `max_requests` timestamps remain in the window, a call is admitted
immediately at the current time and records exactly one new timestamp. -/
theorem c5_below_limit_admits (maxReq window fuel : Nat)
    (requests : List Nat) (now : Nat)
    (hlen : (requests.dropWhile fun t0 =>
      decide (window ≤ now - t0)).length < maxReq) :
    wait_for_slot maxReq window (fuel + 1) false requests now =
      some ((requests.dropWhile fun t0 => decide (window ≤ now - t0)) ++ [now],
        now) := by
  rw [wait_for_slot, if_neg (by simp), if_neg (by omega)]

/-- Witness for `c5_below_limit_admits`: four timestamps in the window,
the 5th call is admitted instantly. -/
theorem c5_below_limit_witness :
    wait_for_slot 5 30000 1 false (List.replicate 4 0) 1000 =
      some (List.replicate 4 0 ++ [1000], 1000) :=
  c5_below_limit_admits 5 30000 0 (List.replicate 4 0) 1000 (by decide)

/-! ## Response cache, memory tier (claims C7, C8) — src/bot.py:193-210,
645-710

The model covers the deployment in which Redis is unavailable
(`REDIS_AVAILABLE = False`, src/bot.py:23-25,50), so `get_cached_data` and
`set_cached_data` operate on the in-memory tier only: the two module dicts
`user_cache` (key → value) and `cache_expiry` (key → insertion time, in
seconds).  Python dicts are modelled as association lists whose `lookup`
agrees with dict indexing. -/

/-- `CACHE_TTL = 300` (src/bot.py:201). -/
def CACHE_TTL : Nat := 300

/-- `METADATA_CACHE_TTL` (src/bot.py:204-209), as the partial map
`dict.get` consults. -/
def METADATA_CACHE_TTL (cache_type : String) : Option Nat :=
  if cache_type = "timezone_names" then some 86400
  else if cache_type = "extension_info" then some 43200
  else if cache_type = "function_metadata" then some 43200
  else if cache_type = "user_subscriptions" then some 300
  else none

/-- `METADATA_CACHE_TTL.get(cache_type, CACHE_TTL)` (src/bot.py:649,676). -/
def ttlFor (cache_type : String) : Nat :=
  (METADATA_CACHE_TTL cache_type).getD CACHE_TTL

theorem ttlFor_pos (cache_type : String) : 0 < ttlFor cache_type := by
  unfold ttlFor METADATA_CACHE_TTL
  split_ifs <;> decide

/-- Dict assignment `d[k] = v`: the association list behaves as the dict
does under `lookup`. -/
def dictSet {α : Type} (l : List (String × α)) (k : String) (v : α) :
    List (String × α) :=
  (k, v) :: l.filter fun p => !(p.1 == k)

/-- `d.pop(k, None)`. -/
def dictDel {α : Type} (l : List (String × α)) (k : String) :
    List (String × α) :=
  l.filter fun p => !(p.1 == k)

/-- The two module-level dicts of the memory cache tier
(src/bot.py:199-200). -/
structure MemCache (α : Type) where
  user_cache : List (String × α)
  cache_expiry : List (String × Nat)

/-- `set_cached_data` (src/bot.py:674-687), memory path: store the value
and record the insertion time `time.time()` (seconds). -/
def set_cached_data {α : Type} (c : MemCache α) (cache_key : String) (data : α)
    (_cache_type : String) (now : Nat) : MemCache α :=
  { user_cache := dictSet c.user_cache cache_key data,
    cache_expiry := dictSet c.cache_expiry cache_key now }

/-- `get_cached_data` (src/bot.py:645-672), memory path: a hit only when
the key is in both dicts and `time.time() - cache_expiry[key] < ttl` for
the requested category's TTL; otherwise the expired entry is dropped and
the call is a miss.  Returns the value (`none` = miss) and the updated
cache. -/
def get_cached_data {α : Type} (c : MemCache α) (cache_key : String)
    (cache_type : String) (now : Nat) : Option α × MemCache α :=
  let ttl := ttlFor cache_type
  match c.user_cache.lookup cache_key, c.cache_expiry.lookup cache_key with
  | some v, some t =>
    if now - t < ttl then (some v, c)
    else (none, { user_cache := dictDel c.user_cache cache_key,
                  cache_expiry := dictDel c.cache_expiry cache_key })
  | some _, none => (none, c)
  | none, _ => (none, c)

theorem lookup_dictSet {α : Type} (l : List (String × α)) (k : String)
    (v : α) : (dictSet l k v).lookup k = some v := by
  simp [dictSet, List.lookup_cons]

/-- C7: writing `(k, v)` in category `cat` at time `now` and reading `k`
back in the same category is a hit returning `v` as long as less than
TTL[cat] seconds have passed, and in particular immediately; once the age
of the entry reaches TTL[cat], the read is a miss. -/
theorem c7_set_then_get {α : Type} (c : MemCache α) (k : String) (v : α)
    (cat : String) (now : Nat) :
    (get_cached_data (set_cached_data c k v cat now) k cat now).1 = some v ∧
    ∀ later : Nat, ttlFor cat ≤ later - now →
      (get_cached_data (set_cached_data c k v cat now) k cat later).1 =
        none := by
  constructor
  · rw [get_cached_data]
    simp only [set_cached_data, lookup_dictSet]
    rw [if_pos (by have := ttlFor_pos cat; omega)]
  · intro later hage
    rw [get_cached_data]
    simp only [set_cached_data, lookup_dictSet]
    rw [if_neg (by omega)]

/-- Witness for `c7_set_then_get`: a `user_subscriptions` entry (TTL 300 s)
written at t = 10 s is returned at t = 10 s and gone at t = 310 s. -/
theorem c7_witness :
    (get_cached_data
      (set_cached_data (MemCache.mk ([] : List (String × Nat)) []) "k" 7
        "user_subscriptions" 10) "k" "user_subscriptions" 10).1 = some 7 ∧
    (get_cached_data
      (set_cached_data (MemCache.mk ([] : List (String × Nat)) []) "k" 7
        "user_subscriptions" 10) "k" "user_subscriptions" 310).1 = none :=
  ⟨(c7_set_then_get (MemCache.mk [] []) "k" 7 "user_subscriptions" 10).1,
   (c7_set_then_get (MemCache.mk [] []) "k" 7 "user_subscriptions" 10).2
     310 (by decide)⟩

/-- `cleanup_expired_cache` (src/bot.py:697-710): an entry is expired when
`current_time - expiry_time >= METADATA_CACHE_TTL.get('default', CACHE_TTL)`
— the literal key `'default'` is absent from `METADATA_CACHE_TTL`, so every
entry is compared against the flat default `CACHE_TTL = 300`, not against
the TTL of its own category (the memory tier does not even record an
entry's category). -/
def cleanup_expired_cache {α : Type} (c : MemCache α) (now : Nat) :
    MemCache α :=
  let cleanupTTL := (METADATA_CACHE_TTL "default").getD CACHE_TTL
  let expired_keys := (c.cache_expiry.filter fun p =>
    decide (cleanupTTL ≤ now - p.2)).map Prod.fst
  { user_cache := c.user_cache.filter fun p => !(expired_keys.contains p.1),
    cache_expiry := c.cache_expiry.filter fun p =>
      !(expired_keys.contains p.1) }

/-- C8 (the bug, evaluated at the failing input): the `'timezone_names'`
entry `"pg_timezone_names"` (TTL 86400 s, src/bot.py:205) is written at
t = 0 and cleanup runs at t = 400 s.  The entry is far within its own
category's TTL — `get_cached_data` would still return it — yet cleanup
deletes it from both dicts, because cleanup compares every entry against
the flat 300 s default. -/
theorem c8_cleanup_removes_fresh_entry :
    let c : MemCache Nat :=
      set_cached_data (MemCache.mk [] []) "pg_timezone_names" 7
        "timezone_names" 0
    (cleanup_expired_cache c 400).user_cache.lookup "pg_timezone_names" =
        none ∧
    (cleanup_expired_cache c 400).cache_expiry.lookup "pg_timezone_names" =
        none ∧
    (get_cached_data c "pg_timezone_names" "timezone_names" 400).1 =
        some 7 ∧
    400 < ttlFor "timezone_names" := by
  refine ⟨?_, ?_, ?_, ?_⟩ <;> decide

/-! ## Subscription loading (claims C1, C9) — src/bot.py:417-537

`load_subscriptions` (src/bot.py:418-446) runs

    response = circuit_breaker.execute(lambda: supabase.table(...).execute())

WITHOUT `await` (src/bot.py:423) — unlike every other call site, which
writes `await circuit_breaker.execute(...)`.  `CircuitBreaker.execute` is
an `async def`, so the call returns a coroutine object; the following
`response.data` raises `AttributeError`, the `except` handler catches it
and returns `{}`.  The model makes the unawaited call explicit. -/

/-- A value a Python expression can land in here: either the coroutine
object produced by calling an async function without awaiting it, or an
actual Supabase response carrying a `.data` field. -/
inductive PyVal (ρ : Type) where
  | coroutine
  | response (data : Option ρ)

/-- Evaluating `e.data`: on a real response it is the `data` field; on a
coroutine object it raises `AttributeError` (coroutines have no `data`). -/
def pyAttrData {ρ : Type} : PyVal ρ → Except Unit (Option ρ)
  | PyVal.coroutine => Except.error ()
  | PyVal.response d => Except.ok d

/-- Calling an `async def` without `await`: the result is the coroutine
object, never the function's value. -/
def callAsyncNoAwait {ρ : Type} (_operation : Unit → Option ρ) : PyVal ρ :=
  PyVal.coroutine

/-- One row of the `subscriptions` table: `userId`, `subscribed`, and the
JSON-encoded `tags` column (`none` models a NULL/empty column, which
`json.loads(row['tags']) if row['tags'] else []` turns into `[]`). -/
structure Row where
  userId : PyStr
  subscribed : Bool
  tags : Option (List PyStr)
deriving Repr, DecidableEq

/-- Per-user subscription record as the bot holds it in memory. -/
structure UserData where
  subscribed : Bool
  tags : List PyStr
deriving Repr, DecidableEq

/-- The inner body of `load_subscriptions` (src/bot.py:420-446), given the
actual store contents the query would return.  Because the
`circuit_breaker.execute(...)` call is not awaited, `response` is a
coroutine object, `response.data` raises, and the handler returns `{}` —
the store contents are never reached. -/
def load_subscriptions (store : List Row) : List (PyStr × UserData) :=
  let response := callAsyncNoAwait fun _ => some store
  match pyAttrData response with
  | Except.error _ => []
  | Except.ok none => []
  | Except.ok (some rows) =>
    if rows.isEmpty then []
    else rows.map fun r =>
      (r.userId, { subscribed := r.subscribed, tags := r.tags.getD [] })

/-- The `@cached_query` wrapper around `load_subscriptions`
(src/bot.py:384-417): a non-`None` cached value is returned as is,
otherwise the wrapped function runs (here the wrapper does await the
breaker, so the inner body executes). -/
def cached_load_subscriptions (decoratorCache : Option (List (PyStr × UserData)))
    (store : List Row) : List (PyStr × UserData) :=
  match decoratorCache with
  | some v => v
  | none => load_subscriptions store

/-- Association-list counterpart of `subscriptions[user_id]` /
`user_id in subscriptions`. -/
def lookupUser (subs : List (PyStr × UserData)) (uid : PyStr) :
    Option UserData :=
  (subs.find? fun p => decide (p.1 = uid)).map Prod.snd

/-- The record `unsubscribe_user` (src/bot.py:501-537) upserts: it first
consults the per-user cache, else loads all subscriptions; then writes
`subscribed = False` with `tags = subscriptions[user_id]['tags'] if
user_id in subscriptions else []`.  The row is upserted, never deleted. -/
def unsubscribe_user (cachedUserData : Option UserData)
    (decoratorCache : Option (List (PyStr × UserData)))
    (store : List Row) (user_id : PyStr) : Row :=
  let subscriptions :=
    match cachedUserData with
    | some d => [(user_id, d)]
    | none => cached_load_subscriptions decoratorCache store
  { userId := user_id, subscribed := false,
    tags := some (match lookupUser subscriptions user_id with
      | some d => d.tags
      | none => []) }

/-- C1 (part 1): whatever the subscription store holds, the inner body of
`load_subscriptions` returns the empty mapping — the unawaited
`circuit_breaker.execute` coroutine has no `.data`, the access raises, and
the exception handler returns `{}`. -/
theorem c1_load_subscriptions_empty (store : List Row) :
    load_subscriptions store = [] := rfl

/-- C9 (the bug, evaluated at the failing input): user `"u"` is stored
with tags `["ai"]` and both caches are cold.  `unsubscribe_user` does set
`subscribed` to `False` and does upsert (not delete) the row, but the
`tags` it writes back are `[]` — `load_subscriptions` returned `{}`, so
the stored keyword list `["ai"]` is overwritten, not preserved. -/
theorem c9_unsubscribe_wipes_tags :
    unsubscribe_user none none
        [{ userId := "u".toList, subscribed := true,
           tags := some ["ai".toList] }] "u".toList =
      { userId := "u".toList, subscribed := false, tags := some [] } := rfl

/-- C9 (frame part that does hold): when the per-user cache still holds the
user's record, unsubscribing keeps the cached keyword list and only flips
the flag. -/
theorem c9_unsubscribe_cached_keeps_tags (d : UserData)
    (decoratorCache : Option (List (PyStr × UserData)))
    (store : List Row) (uid : PyStr) :
    unsubscribe_user (some d) decoratorCache store uid =
      { userId := uid, subscribed := false, tags := some d.tags } := by
  simp [unsubscribe_user, lookupUser, List.find?]

/-! ## Delivery cycle `send_news_dms` (claims C1, C2, C3) —
src/bot.py:825-890

One cycle: load subscriptions (return if empty), fetch stories (return if
empty), keep the first 20 whose id is not in `posted_ids` (return if none),
walk the subscribers selecting each one's batch, send it, and finally add
EVERY id of `new_stories` to `posted_ids` (src/bot.py:884-886).
Recipient resolution and message sending are modelled as succeeding; their
failure paths (`continue` / `break` inside the user loop, send returning
`False`) change neither which batch a user was selected for before the
failure point nor the final marking loop, which runs either way. -/

/-- The batch selected for one subscriber (src/bot.py:854-867):
`stories_to_check = new_stories[:5]`; with keywords, the matching ones
capped at 3; without keywords, the first 3. -/
def userBatch (new_stories : List Story) (ud : UserData) : List Story :=
  if ud.tags.isEmpty then (new_stories.take 5).take 3
  else ((new_stories.take 5).filter fun s =>
    story_matches_keywords s ud.tags).take 3

/-- The subscriber loop (src/bot.py:847-882): stop after 5 users have been
processed, skip unsubscribed users, skip users whose batch is empty
(nothing is sent and `processed_users` is not incremented), otherwise
deliver the batch and count the user. -/
def deliveriesGo (new_stories : List Story) :
    List (PyStr × UserData) → Nat → List (PyStr × List Story)
  | [], _ => []
  | (uid, ud) :: rest, processed =>
    if 5 ≤ processed then []
    else if !ud.subscribed then deliveriesGo new_stories rest processed
    else if (userBatch new_stories ud).isEmpty then
      deliveriesGo new_stories rest processed
    else
      (uid, userBatch new_stories ud) ::
        deliveriesGo new_stories rest (processed + 1)

/-- All (subscriber, batch) deliveries of one cycle. -/
def deliveries (subscriptions : List (PyStr × UserData))
    (new_stories : List Story) : List (PyStr × List Story) :=
  deliveriesGo new_stories subscriptions 0

/-- `new_stories = [s for s in stories[:20] if s["id"] not in posted_ids]`
(src/bot.py:840). -/
def newStories (stories : List Story) (posted_ids : List PyStr) :
    List Story :=
  (stories.take 20).filter fun s => decide (s.id ∉ posted_ids)

/-- Result of one `send_news_dms` cycle: the deliveries made and the
`posted_ids` set after the cycle. -/
structure CycleResult where
  messages : List (PyStr × List Story)
  posted : List PyStr
deriving Repr, DecidableEq

/-- One `send_news_dms` cycle (src/bot.py:825-890): the three early
returns deliver nothing and leave `posted_ids` untouched; otherwise the
subscriber loop runs and then every id of `new_stories` is added to
`posted_ids`, whether or not the story was selected for anyone. -/
def send_news_dms (subscriptions : List (PyStr × UserData))
    (stories : List Story) (posted_ids : List PyStr) : CycleResult :=
  if subscriptions.isEmpty then { messages := [], posted := posted_ids }
  else if stories.isEmpty then { messages := [], posted := posted_ids }
  else if (newStories stories posted_ids).isEmpty then
    { messages := [], posted := posted_ids }
  else
    { messages := deliveries subscriptions (newStories stories posted_ids),
      posted := posted_ids ++ (newStories stories posted_ids).map Story.id }

/-- C1: whatever the subscription store holds, `load_subscriptions`
returns the empty mapping (the unawaited coroutine's `.data` access raises,
the handler returns `{}`), so does its decorated form on a cold cache, and
a `send_news_dms` cycle that starts from that empty mapping exits at the
first early return: it delivers no message and adds nothing to
`posted_ids`. -/
theorem c1_cycle_sends_nothing (store : List Row) (stories : List Story)
    (posted_ids : List PyStr) :
    load_subscriptions store = [] ∧
    cached_load_subscriptions none store = [] ∧
    (send_news_dms (cached_load_subscriptions none store) stories
        posted_ids).messages = [] ∧
    (send_news_dms (cached_load_subscriptions none store) stories
        posted_ids).posted = posted_ids := by
  refine ⟨rfl, rfl, ?_, ?_⟩ <;> rfl

/-! ### C2: what gets marked seen -/

/-- The claim-C2 property for a single cycle: an id is newly added to the
dedup set only if it belongs to some subscriber's selected batch. -/
def onlySelectedMarked (subscriptions : List (PyStr × UserData))
    (stories : List Story) (posted_ids : List PyStr) : Prop :=
  ∀ i : PyStr,
    i ∈ (send_news_dms subscriptions stories posted_ids).posted →
    i ∉ posted_ids →
    ∃ p ∈ (send_news_dms subscriptions stories posted_ids).messages,
      ∃ s ∈ p.2, s.id = i

/-- The cycle of the C2 counterexample: one subscriber filtering on
`"rust"`, one fetched story titled `"go"` that matches nobody. -/
def c2Subs : List (PyStr × UserData) :=
  [("u".toList, { subscribed := true, tags := ["rust".toList] })]

def c2Story : Story := mkStory "1".toList "go".toList "".toList "m".toList

/-- C2 (counterexample): the story `"1"` matches no subscriber, so the
cycle delivers nothing — yet its id is added to `posted_ids` anyway
(src/bot.py:884-886 marks every member of `new_stories`).  The claim
"only items selected for sending are added to the dedup set" is false. -/
theorem c2_counterexample : ¬ onlySelectedMarked c2Subs [c2Story] [] := by
  intro h
  have h1 : ("1".toList : PyStr) ∈
      (send_news_dms c2Subs [c2Story] []).posted := by decide
  have h2 : ("1".toList : PyStr) ∉ ([] : List PyStr) := by decide
  obtain ⟨p, hp, _⟩ := h "1".toList h1 h2
  have : (send_news_dms c2Subs [c2Story] []).messages = [] := by decide
  rw [this] at hp
  exact absurd hp (List.not_mem_nil p)

/-- C2 (amended): whenever a cycle gets past its early returns (some
subscriber exists, some story was fetched, some fetched story is unseen),
EVERY unseen fetched item is added to the dedup set — merely fetched is
enough; selection plays no part in the marking. -/
theorem c2_all_fetched_marked (subscriptions : List (PyStr × UserData))
    (stories : List Story) (posted_ids : List PyStr)
    (hsubs : subscriptions ≠ []) (hstories : stories ≠ [])
    (hnew : newStories stories posted_ids ≠ []) :
    (send_news_dms subscriptions stories posted_ids).posted =
      posted_ids ++ (newStories stories posted_ids).map Story.id := by
  rw [send_news_dms,
    if_neg (by simpa using hsubs),
    if_neg (by simpa using hstories),
    if_neg (by simpa using hnew)]

/-- Witness for `c2_all_fetched_marked`, at the counterexample cycle: the
unmatched story `"1"` ends up in `posted_ids`. -/
theorem c2_all_fetched_marked_witness :
    (send_news_dms c2Subs [c2Story] []).posted =
      [] ++ (newStories [c2Story] []).map Story.id :=
  c2_all_fetched_marked c2Subs [c2Story] []
    (by decide) (by decide) (by decide)

/-! ### C3: an item sent once is never sent again -/

/-- Everything in a selected batch came out of `userBatch`. -/
theorem mem_deliveriesGo (new_stories : List Story) :
    ∀ (subs : List (PyStr × UserData)) (processed : Nat) (uid : PyStr)
      (batch : List Story),
    (uid, batch) ∈ deliveriesGo new_stories subs processed →
    ∃ ud : UserData, batch = userBatch new_stories ud := by
  intro subs
  induction subs with
  | nil =>
    intro processed uid batch h
    rw [deliveriesGo] at h
    exact absurd h (List.not_mem_nil _)
  | cons hd rest ih =>
    intro processed uid batch h
    obtain ⟨u, ud⟩ := hd
    rw [deliveriesGo] at h
    split at h
    · exact absurd h (List.not_mem_nil _)
    · split at h
      · exact ih _ _ _ h
      · split at h
        · exact ih _ _ _ h
        · rcases List.mem_cons.mp h with heq | hmem
          · injection heq with _ hbatch
            exact ⟨ud, hbatch⟩
          · exact ih _ _ _ hmem

/-- A user's batch only holds stories of `new_stories`. -/
theorem mem_userBatch (new_stories : List Story) (ud : UserData) (s : Story)
    (h : s ∈ userBatch new_stories ud) : s ∈ new_stories := by
  unfold userBatch at h
  split at h
  · exact List.take_subset _ _ (List.take_subset _ _ h)
  · exact List.take_subset _ _ (List.mem_filter.mp (List.take_subset _ _ h)).1

/-- `new_stories` holds only ids that are not yet in `posted_ids`. -/
theorem newStories_fresh (stories : List Story) (posted : List PyStr)
    (s : Story) (h : s ∈ newStories stories posted) : s.id ∉ posted := by
  unfold newStories at h
  exact of_decide_eq_true (List.mem_filter.mp h).2

/-- A cycle that delivered anything ran its full body: the messages are the
subscriber loop's output and every `new_stories` id was marked. -/
theorem send_messages_eq (subs : List (PyStr × UserData))
    (stories : List Story) (posted : List PyStr)
    (h : (send_news_dms subs stories posted).messages ≠ []) :
    send_news_dms subs stories posted =
      { messages := deliveries subs (newStories stories posted),
        posted := posted ++ (newStories stories posted).map Story.id } := by
  by_cases h1 : subs.isEmpty = true
  · rw [send_news_dms, if_pos h1] at h
    exact absurd rfl h
  by_cases h2 : stories.isEmpty = true
  · rw [send_news_dms, if_neg h1, if_pos h2] at h
    exact absurd rfl h
  by_cases h3 : (newStories stories posted).isEmpty = true
  · rw [send_news_dms, if_neg h1, if_neg h2, if_pos h3] at h
    exact absurd rfl h
  · rw [send_news_dms, if_neg h1, if_neg h2, if_neg h3]

/-- A story delivered in a cycle was unseen when the cycle started and is
in the dedup set when it ends. -/
theorem sent_batch_facts (subs : List (PyStr × UserData))
    (stories : List Story) (posted : List PyStr) (uid : PyStr)
    (batch : List Story) (s : Story)
    (hmem : (uid, batch) ∈ (send_news_dms subs stories posted).messages)
    (hs : s ∈ batch) :
    s.id ∉ posted ∧ s.id ∈ (send_news_dms subs stories posted).posted := by
  have hne : (send_news_dms subs stories posted).messages ≠ [] := by
    intro heq
    rw [heq] at hmem
    exact absurd hmem (List.not_mem_nil _)
  rw [send_messages_eq subs stories posted hne] at hmem ⊢
  obtain ⟨ud, hbatch⟩ := mem_deliveriesGo _ _ _ _ _ hmem
  subst hbatch
  have hns := mem_userBatch _ _ _ hs
  exact ⟨newStories_fresh _ _ _ hns,
    List.mem_append.mpr (Or.inr (List.mem_map.mpr ⟨s, hns, rfl⟩))⟩

/-- The dedup set only grows across a cycle. -/
theorem posted_mono_step (subs : List (PyStr × UserData))
    (stories : List Story) (posted : List PyStr) (x : PyStr)
    (hx : x ∈ posted) : x ∈ (send_news_dms subs stories posted).posted := by
  rw [send_news_dms]
  split
  · exact hx
  split
  · exact hx
  split
  · exact hx
  · exact List.mem_append.mpr (Or.inl hx)

/-- The per-cycle environment: the subscriptions the cycle loads and the
stories its fetch returns (both may change between cycles). -/
structure CycleInput where
  subs : List (PyStr × UserData)
  stories : List Story
deriving Repr, DecidableEq

/-- The scheduler's step relation, iterated: run one `send_news_dms` cycle
per input, threading `posted_ids` through (it is the only state the cycle
keeps, src/bot.py:185). -/
def runCycles : List PyStr → List CycleInput → List CycleResult
  | _, [] => []
  | posted, inp :: rest =>
    send_news_dms inp.subs inp.stories posted ::
      runCycles (send_news_dms inp.subs inp.stories posted).posted rest

/-- An id delivered at any later cycle was absent from the `posted_ids`
the run started with. -/
theorem sent_id_notin_start (inputs : List CycleInput) :
    ∀ (posted : List PyStr) (k : Nat) (r : CycleResult) (uid : PyStr)
      (batch : List Story) (s : Story) (x : PyStr),
    (runCycles posted inputs)[k]? = some r →
    (uid, batch) ∈ r.messages → s ∈ batch → x ∈ posted → s.id ≠ x := by
  induction inputs with
  | nil =>
    intro posted k r uid batch s x hk
    rw [runCycles] at hk
    rw [List.getElem?_nil] at hk
    exact absurd hk (by simp)
  | cons inp rest ih =>
    intro posted k r uid batch s x hk hm hs hx
    match k with
    | 0 =>
      rw [runCycles, List.getElem?_cons_zero, Option.some.injEq] at hk
      subst hk
      intro heq
      exact absurd (heq ▸ hx) (sent_batch_facts _ _ _ _ _ _ hm hs).1
    | Nat.succ k =>
      rw [runCycles, List.getElem?_cons_succ] at hk
      exact ih _ k r uid batch s x hk hm hs
        (posted_mono_step _ _ _ _ hx)

/-- C3: over any run of delivery cycles (with arbitrary subscriptions and
fetched stories in each cycle), once a story has been included in some
subscriber's batch in cycle `k`, no story with the same id is ever included
in any subscriber's batch in a later cycle `k'`. -/
theorem c3_dedup_idempotent (inputs : List CycleInput) :
    ∀ (posted0 : List PyStr) (k k' : Nat) (r r' : CycleResult)
      (uid uid' : PyStr) (batch batch' : List Story) (s s' : Story),
    k < k' →
    (runCycles posted0 inputs)[k]? = some r →
    (uid, batch) ∈ r.messages → s ∈ batch →
    (runCycles posted0 inputs)[k']? = some r' →
    (uid', batch') ∈ r'.messages → s' ∈ batch' →
    s'.id ≠ s.id := by
  induction inputs with
  | nil =>
    intro posted0 k k' r r' uid uid' batch batch' s s' _ hk
    rw [runCycles, List.getElem?_nil] at hk
    exact absurd hk (by simp)
  | cons inp rest ih =>
    intro posted0 k k' r r' uid uid' batch batch' s s' hkk hk hm hs hk' hm' hs'
    match k, k' with
    | _, 0 => exact absurd hkk (by omega)
    | 0, Nat.succ k' =>
      rw [runCycles, List.getElem?_cons_zero, Option.some.injEq] at hk
      subst hk
      rw [runCycles, List.getElem?_cons_succ] at hk'
      exact sent_id_notin_start rest _ k' r' uid' batch' s' s.id hk' hm' hs'
        (sent_batch_facts _ _ _ _ _ _ hm hs).2
    | Nat.succ k, Nat.succ k' =>
      rw [runCycles, List.getElem?_cons_succ] at hk hk'
      exact ih _ k k' r r' uid uid' batch batch' s s' (by omega) hk hm hs
        hk' hm' hs'

def c3User : PyStr × UserData :=
  ("u".toList, { subscribed := true, tags := [] })

def c3St1 : Story := mkStory "1".toList "a".toList "".toList "".toList

def c3St2 : Story := mkStory "2".toList "b".toList "".toList "".toList

def c3Inputs : List CycleInput :=
  [{ subs := [c3User], stories := [c3St1] },
   { subs := [c3User], stories := [c3St1, c3St2] }]

/-- Witness for `c3_dedup_idempotent`: a keywordless subscriber, cycle 0
fetches story 1 and delivers it, cycle 1 fetches stories 1 and 2 and
delivers only story 2 — the theorem applied to this run yields that the
later batch's story has a different id. -/
theorem c3_witness : c3St2.id ≠ c3St1.id :=
  c3_dedup_idempotent c3Inputs [] 0 1
    { messages := [("u".toList, [c3St1])], posted := ["1".toList] }
    { messages := [("u".toList, [c3St2])],
      posted := ["1".toList, "2".toList] }
    "u".toList "u".toList [c3St1] [c3St2] c3St1 c3St2
    (by decide) (by decide) (by decide) (by decide) (by decide) (by decide)
    (by decide)

end YCBot
